import Mathlib

/-!
# Verification of the DocQueryAI retrieval-augmented-generation core

Shallow embedding of the RAG pipeline of the DocQueryAI backend:

* `app/utils/text_chunker.py` — text chunking (`chunk_text`, `clean_text`,
  `split_into_paragraphs`, `split_long_paragraph`, `get_overlap_text`);
* `app/services/query_service.py` — `calculate_confidence`, `build_sources`;
* `app/services/milvus_service.py` — the vector-index adapter
  (`add_chunks` row construction, `search` filtering/ranking/formatting,
  `delete_document_chunks`);
* `app/services/llm_service.py` — answer generation
  (`generate_response`, `generate_async` dispatch, `fallback_response`,
  `build_context`, `build_prompt`);
* `app/services/document_service.py` — `process_document` status machine;
* `app/api/documents.py` — the `reprocess_document` endpoint.

Python strings are modelled as `List Char` / `String`, Python `float`
as `Rat` (an idealisation of IEEE doubles: the algorithms involved are
exact on the decimal constants used), Python `int` as `Int`/`Nat`, and
fallible external calls (HTTP, DB flushes, embedding providers) as
`Except String` valued oracles passed in as parameters.
-/

/-- Python `str.isspace` / `\s` on the ASCII range: the whitespace
characters recognised by `str.strip`, `str.split`, and the `\s` regex
class (inputs considered here are ASCII). -/
def pyIsSpace (c : Char) : Bool :=
  c = ' ' ∨ c = '\t' ∨ c = '\n' ∨ c = '\r' ∨ c = '\x0b' ∨ c = '\x0c'

/-- Python `str.strip()` on a list of characters. -/
def pyStrip (l : List Char) : List Char :=
  ((l.dropWhile pyIsSpace).reverse.dropWhile pyIsSpace).reverse

/-- Python truthiness of a string (`if text:`): nonempty. -/
def pyTruthyStr (s : String) : Bool := ¬ s.data.isEmpty

/-- `re.sub(r'\s+', ' ', text)`: every maximal run of whitespace becomes a
single space.  `prevSpace` records whether the previously scanned
character was whitespace (i.e. whether we are inside a run). -/
def collapseWS (prevSpace : Bool) : List Char → List Char
  | [] => []
  | c :: cs =>
    if pyIsSpace c then
      (if prevSpace then [] else [' ']) ++ collapseWS true cs
    else c :: collapseWS false cs

/-- `re.sub(r'\n{3,}', '\n\n', text)`: runs of three or more newlines
collapse to exactly two.  `run` counts newlines already emitted or
suppressed in the current run. -/
def collapseNL (run : Nat) : List Char → List Char
  | [] => []
  | c :: cs =>
    if c = '\n' then
      (if run < 2 then ['\n'] else []) ++ collapseNL (run + 1) cs
    else c :: collapseNL 0 cs

/-- `clean_text` from `text_chunker.py`: collapse whitespace runs, collapse
3+ newlines (dead after the first substitution, kept for fidelity), strip. -/
def clean_text (s : String) : String :=
  ⟨pyStrip (collapseNL 0 (collapseWS false s.data))⟩

/-- Python `text.split('\n\n')` (the live branch of
`split_into_paragraphs`; the preceding regex split result is overwritten
by the source). -/
def splitNN (acc : List Char) : List Char → List (List Char)
  | [] => [acc.reverse]
  | '\n' :: '\n' :: rest => acc.reverse :: splitNN [] rest
  | c :: cs => splitNN (c :: acc) cs

/-- `split_into_paragraphs` from `text_chunker.py`: split on blank lines,
strip each piece, keep the nonempty ones. -/
def split_into_paragraphs (s : String) : List (List Char) :=
  ((splitNN [] s.data).map pyStrip).filter (fun p => ¬ p.isEmpty)

/-- Value of a nonempty digit string. -/
def digitsVal (ds : List Char) : Nat :=
  ds.foldl (fun a c => 10 * a + (c.toNat - 48)) 0

/-- Attempt to match the regex `\[Page (\d+)\]` at the head of `l`,
returning the captured page number. -/
def pageNumAt (l : List Char) : Option Nat :=
  if l.take 6 = "[Page ".data then
    let ds := (l.drop 6).takeWhile Char.isDigit
    if ds.isEmpty then none
    else if ((l.drop 6).drop ds.length).take 1 = "]".data then
      some (digitsVal ds)
    else none
  else none

/-- `re.search(r'\[Page (\d+)\]', para)`: page number of the first match,
if any. -/
def findPageNum : List Char → Option Nat
  | [] => none
  | c :: cs =>
    match pageNumAt (c :: cs) with
    | some v => some v
    | none => findPageNum cs

/-- Number of characters (beyond the first) consumed by a match of
`\[Page \d+\]\s*` starting at the head of `l`, when it matches. -/
def pageMarkerTail (l : List Char) : Option Nat :=
  if l.take 6 = "[Page ".data then
    let ds := (l.drop 6).takeWhile Char.isDigit
    if ds.isEmpty then none
    else
      let rest := (l.drop 6).drop ds.length
      if rest.take 1 = "]".data then
        some (6 + ds.length + ((rest.drop 1).takeWhile pyIsSpace).length)
      else none
  else none

/-- `re.sub(r'\[Page \d+\]\s*', '', para)`: delete every page marker and
the whitespace following it, scanning left to right without overlap. -/
def stripPageMarkers : Nat → List Char → List Char
  | _ + 1, [] => []
  | k + 1, _ :: cs => stripPageMarkers k cs
  | 0, [] => []
  | 0, c :: cs =>
    match pageMarkerTail (c :: cs) with
    | some n => stripPageMarkers n cs
    | none => c :: stripPageMarkers 0 cs

/-- The word-boundary adjustment inside `get_overlap_text`: advance past
the first space (`overlap.find(' ')`) when it falls strictly inside the
first half of the slice. -/
def pyTrimOverlap (overlap : List Char) : List Char :=
  match overlap.findIdx? (fun c => c = ' ') with
  | some i => if 0 < i ∧ i < overlap.length / 2 then overlap.drop (i + 1) else overlap
  | none => overlap

/-- `get_overlap_text(text, overlap_size)` from `text_chunker.py`: the last
`overlap_size` characters, word-boundary adjusted.  (`text[-0:]` is all
of `text` in Python; the `overlap_size = 0` branch mirrors that.) -/
def get_overlap_text (text : List Char) (overlap_size : Nat) : List Char :=
  if text.length ≤ overlap_size then text
  else
    pyTrimOverlap (if overlap_size = 0 then text
      else text.drop (text.length - overlap_size))

/-- `re.split(r'(?<=[.!?])\s+', paragraph)`: split at whitespace runs that
follow a sentence-ending punctuation mark; the run is the delimiter.
`skipWS` is true while consuming a matched whitespace run; `acc` holds the
current segment reversed (its head is the lookbehind character). -/
def sentSplitAux (skipWS : Bool) (acc : List Char) : List Char → List (List Char)
  | [] => [acc.reverse]
  | c :: cs =>
    if skipWS then
      if pyIsSpace c then sentSplitAux true acc cs
      else sentSplitAux false (c :: acc) cs
    else
      if pyIsSpace c ∧ (acc.head? = some '.' ∨ acc.head? = some '!' ∨ acc.head? = some '?') then
        acc.reverse :: sentSplitAux true [] cs
      else sentSplitAux false (c :: acc) cs

/-- Python `sentence.split()`: maximal runs of non-whitespace. -/
def pyWords (acc : List Char) : List Char → List (List Char)
  | [] => if acc.isEmpty then [] else [acc.reverse]
  | c :: cs =>
    if pyIsSpace c then
      if acc.isEmpty then pyWords [] cs else acc.reverse :: pyWords [] cs
    else pyWords (c :: acc) cs

/-- State of the word-packing inner loop of `split_long_paragraph`. -/
def slpWordStep (chunk_size : Nat) (st : List (List Char) × List Char)
    (word : List Char) : List (List Char) × List Char :=
  let (chunks, word_chunk) := st
  if chunk_size < word_chunk.length + word.length then
    if ¬ word_chunk.isEmpty then (chunks ++ [pyStrip word_chunk], word) else (chunks, word_chunk)
  else
    if ¬ word_chunk.isEmpty then (chunks, word_chunk ++ ' ' :: word) else (chunks, word)

/-- State of the sentence-packing loop of `split_long_paragraph`. -/
def slpSentStep (chunk_size chunk_overlap : Nat)
    (st : List (List Char) × List Char) (sentence : List Char) :
    List (List Char) × List Char :=
  let (chunks, current_chunk) := st
  if chunk_size < current_chunk.length + sentence.length then
    if ¬ current_chunk.isEmpty then
      let chunks := chunks ++ [pyStrip current_chunk]
      let overlap := get_overlap_text current_chunk chunk_overlap
      (chunks, overlap ++ ' ' :: sentence)
    else
      let words := pyWords [] sentence
      let (chunks, word_chunk) := words.foldl (slpWordStep chunk_size) (chunks, [])
      if ¬ word_chunk.isEmpty then (chunks, word_chunk) else (chunks, [])
  else
    if ¬ current_chunk.isEmpty then (chunks, current_chunk ++ ' ' :: sentence)
    else (chunks, sentence)

/-- `split_long_paragraph` from `text_chunker.py`. -/
def split_long_paragraph (paragraph : List Char) (chunk_size chunk_overlap : Nat) :
    List (List Char) :=
  let sentences := sentSplitAux false [] paragraph
  let (chunks, current_chunk) :=
    sentences.foldl (slpSentStep chunk_size chunk_overlap) ([], [])
  if ¬ current_chunk.isEmpty then chunks ++ [pyStrip current_chunk] else chunks

/-- A chunk dictionary as produced by `chunk_text`. -/
structure RawChunk where
  content : String
  chunk_index : Nat
  page_number : Option Nat
  deriving DecidableEq, Repr

/-- State of the paragraph loop of `chunk_text`. -/
structure ChunkLoopState where
  chunks : List RawChunk
  current_chunk : List Char
  current_page : Option Nat
  deriving Repr

/-- One iteration of the paragraph loop of `chunk_text`. -/
def chunkParaStep (chunk_size chunk_overlap : Nat) (st : ChunkLoopState)
    (para0 : List Char) : ChunkLoopState :=
  let current_page := match findPageNum para0 with
    | some n => some n
    | none => st.current_page
  let para := match findPageNum para0 with
    | some _ => stripPageMarkers 0 para0
    | none => para0
  if chunk_size < st.current_chunk.length + para.length then
    if ¬ st.current_chunk.isEmpty then
      let chunks := st.chunks ++
        [⟨⟨pyStrip st.current_chunk⟩, st.chunks.length, current_page⟩]
      let overlap := get_overlap_text st.current_chunk chunk_overlap
      ⟨chunks, overlap ++ ' ' :: para, current_page⟩
    else
      let para_chunks := split_long_paragraph para chunk_size chunk_overlap
      let chunks := para_chunks.foldl
        (fun acc pc => acc ++ [⟨⟨pyStrip pc⟩, acc.length, current_page⟩]) st.chunks
      ⟨chunks, [], current_page⟩
  else
    if ¬ st.current_chunk.isEmpty then
      ⟨st.chunks, st.current_chunk ++ '\n' :: '\n' :: para, current_page⟩
    else
      ⟨st.chunks, para, current_page⟩

/-- `MIN_CHUNK_SIZE` from `text_chunker.py` (characters). -/
def MIN_CHUNK_SIZE : Nat := 100

/-- `chunk_text(text, chunk_size=1000, chunk_overlap=200)` from
`text_chunker.py`: clean the text, split into paragraphs, pack paragraphs
greedily into character-bounded chunks (splitting oversized paragraphs by
sentences, then words), and keep the trailing buffer only when its
stripped length reaches `MIN_CHUNK_SIZE`. -/
def chunk_text (text : String) (chunk_size : Nat := 1000)
    (chunk_overlap : Nat := 200) : List RawChunk :=
  if ¬ pyTruthyStr text ∨ (pyStrip text.data).length = 0 then []
  else
    let cleaned := clean_text text
    let paragraphs := split_into_paragraphs cleaned
    let st := paragraphs.foldl (chunkParaStep chunk_size chunk_overlap)
      ⟨[], [], none⟩
    if ¬ st.current_chunk.isEmpty ∧ MIN_CHUNK_SIZE ≤ (pyStrip st.current_chunk).length then
      st.chunks ++ [⟨⟨pyStrip st.current_chunk⟩, st.chunks.length, st.current_page⟩]
    else st.chunks

/-! ## Query service (`app/services/query_service.py`) -/

/-- A formatted search result dictionary, as produced by
`MilvusService.search` and consumed by `calculate_confidence`,
`build_sources` and the LLM service. -/
structure SearchResult where
  milvus_id : String
  content : String
  document_id : Int
  document_name : String
  chunk_index : Int
  page_number : Int
  score : Rat
  distance : Rat
  deriving DecidableEq, Repr

/-- Round half to even at integer precision (Python `round` on the
idealised rational value). -/
def roundHalfEven (q : Rat) : Int :=
  if q - ⌊q⌋ < 1 / 2 then ⌊q⌋
  else if 1 / 2 < q - ⌊q⌋ then ⌊q⌋ + 1
  else if ⌊q⌋ % 2 = 0 then ⌊q⌋ else ⌊q⌋ + 1

/-- Python `round(x, 3)` on the idealised rational value. -/
def pyRound3 (q : Rat) : Rat := (roundHalfEven (q * 1000) : Rat) / 1000

/-- `calculate_confidence(results)` from `query_service.py`: weighted
average of the scores of (at most) the first five results with weights
`[1.0, 0.8, 0.6, 0.4, 0.2]`, normalised by the weights actually used,
capped above at `1.0` with `min`, and rounded to three decimals; `0.0`
for the empty list.  (`result.get("score", 0)` reads the `score` field,
always present on a search result; the enumerate-with-break loop is the
zip with the weight list.) -/
def calculate_confidence (results : List SearchResult) : Rat :=
  if results.isEmpty then 0
  else
    let weights : List Rat := [1, 8/10, 6/10, 4/10, 2/10]
    let pairs := (results.take weights.length).zip weights
    let weighted_sum := (pairs.map (fun p => p.1.score * p.2)).sum
    let weight_total := (pairs.map (fun p => p.2)).sum
    if weight_total = 0 then 0
    else pyRound3 (min 1 (weighted_sum / weight_total))

/-- A source citation record as built by `build_sources`. -/
structure SourceChunk where
  document_id : Int
  document_name : String
  chunk_id : Int
  content : String
  relevance_score : Rat
  page : Int
  deriving DecidableEq, Repr

/-- `build_sources(search_results)` from `query_service.py`: full content
preserved, `chunk_index` exposed as `chunk_id`, `score` as
`relevance_score`. -/
def build_sources (search_results : List SearchResult) : List SourceChunk :=
  search_results.map fun result =>
    { document_id := result.document_id
      document_name := result.document_name
      chunk_id := result.chunk_index
      content := result.content
      relevance_score := result.score
      page := result.page_number }

/-! ## Vector index adapter (`app/services/milvus_service.py`) -/

/-- A record of the `DocQueryChunks` collection: the scalar fields of the
schema plus the embedding vector. -/
structure MilvusRow where
  content : String
  document_id : Int
  user_id : Int
  chunk_index : Int
  document_name : String
  page_number : Int
  vector : List Rat
  deriving DecidableEq, Repr

/-- Python string slice `s[:n]`. -/
def strTake (s : String) (n : Nat) : String := ⟨s.data.take n⟩

/-- The row-construction loop of `MilvusService.add_chunks`: one row per
chunk, with `content[:65535]`, `document_name[:1024]`,
`chunk_index = int(chunk.get("chunk_index", i))` (the field is always
set by `chunk_text`), `page_number = int(chunk.get("page_number") or 0)`
(`None` and `0` both become `0`), and `vector = embeddings[i]` (callers
supply one embedding per chunk). -/
def MilvusService.add_chunks_rows (chunks : List RawChunk)
    (document_id user_id : Int) (document_name : String)
    (embeddings : List (List Rat)) : List MilvusRow :=
  chunks.enum.map fun p =>
    { content := strTake p.2.content 65535
      document_id := document_id
      user_id := user_id
      chunk_index := Int.ofNat p.2.chunk_index
      document_name := strTake document_name 1024
      page_number := Int.ofNat (p.2.page_number.getD 0)
      vector := embeddings.getD p.1 [] }

/-- `MilvusService.add_chunks`: fetch embeddings (a fallible external
call), build the rows, and insert them into the collection (a fallible
external call assigning the ids); the whole batch is appended to the
store atomically or the call raises. -/
def MilvusService.add_chunks (store : List MilvusRow) (chunks : List RawChunk)
    (document_id user_id : Int) (document_name : String)
    (embedRes : Except String (List (List Rat)))
    (insertRes : Except String (List String)) :
    Except String (List MilvusRow × List String) :=
  match embedRes with
  | .error e => .error e
  | .ok embeddings =>
    let data := MilvusService.add_chunks_rows chunks document_id user_id
      document_name embeddings
    match insertRes with
    | .error e => .error e
    | .ok inserted_ids => .ok (store ++ data, inserted_ids)

/-- Semantics of the filter expression built by `MilvusService.search`:
`"user_id == {user_id}"`, with
`" and document_id in [{ids}]"` appended only when `document_ids` is
truthy (neither `None` nor the empty list). -/
def MilvusService.filterMatch (user_id : Int) (document_ids : Option (List Int))
    (r : MilvusRow) : Bool :=
  (r.user_id == user_id) &&
    (match document_ids with
     | none => true
     | some ids => if ids.isEmpty then true else ids.contains r.document_id)

/-- Insert a row into a list sorted by ascending distance. -/
def insertByDist (dist : MilvusRow → Rat) (r : MilvusRow) :
    List MilvusRow → List MilvusRow
  | [] => [r]
  | x :: xs => if dist r < dist x then r :: x :: xs else x :: insertByDist dist r xs

/-- The index ranks candidates by ascending distance. -/
def sortByDist (dist : MilvusRow → Rat) (l : List MilvusRow) : List MilvusRow :=
  l.foldr (insertByDist dist) []

/-- The rows the vector index returns for a search: stored rows matching
the filter, ranked by ascending distance to the query embedding
(abstracted as `dist`), truncated to `limit`. -/
def MilvusService.search_hits (store : List MilvusRow) (dist : MilvusRow → Rat)
    (user_id : Int) (document_ids : Option (List Int)) (limit : Nat) :
    List MilvusRow :=
  (sortByDist dist (store.filter (MilvusService.filterMatch user_id document_ids))).take limit

/-- The result-formatting loop of `MilvusService.search`:
`score = 1 - distance`, `page_number` defaulting to `0`
(`hit.get("page_number", 0)`; the field is always stored). -/
def MilvusService.format_hit (dist : MilvusRow → Rat)
    (idAssign : MilvusRow → String) (r : MilvusRow) : SearchResult :=
  { milvus_id := idAssign r
    content := r.content
    document_id := r.document_id
    document_name := r.document_name
    chunk_index := r.chunk_index
    page_number := r.page_number
    score := 1 - dist r
    distance := dist r }

/-- `MilvusService.search(query, user_id, document_ids, limit)`: the
query embedding and cosine distance are abstracted into `dist`; the
server-assigned primary keys into `idAssign`. -/
def MilvusService.search (store : List MilvusRow) (dist : MilvusRow → Rat)
    (idAssign : MilvusRow → String) (user_id : Int)
    (document_ids : Option (List Int)) (limit : Nat) : List SearchResult :=
  (MilvusService.search_hits store dist user_id document_ids limit).map
    (MilvusService.format_hit dist idAssign)

/-- `MilvusService.delete_document_chunks(document_id)`: delete every
entity matching `"document_id == {document_id}"`. -/
def MilvusService.delete_document_chunks (store : List MilvusRow)
    (document_id : Int) : List MilvusRow :=
  store.filter fun r => ¬ (r.document_id == document_id)

/-! ## Answer generator (`app/services/llm_service.py`) -/

/-- A chat-history message. -/
structure ChatMsg where
  role : String
  content : String
  deriving DecidableEq, Repr

/-- The per-call user settings dictionary accepted by
`generate_response` (absent keys are `none`). -/
structure UserSettings where
  llm_provider : Option String := none
  llm_model : Option String := none
  temperature : Option Rat := none
  max_tokens : Option Int := none
  openai_api_key : Option String := none
  anthropic_api_key : Option String := none
  gemini_api_key : Option String := none

/-- Python truthiness of an optional string (`if not api_key:`):
`None` and the empty string are falsy. -/
def pyTruthy : Option String → Bool
  | none => false
  | some s => ¬ s.data.isEmpty

/-- Python `a or b` on optional strings. -/
def pyOrStr (a b : Option String) : Option String := if pyTruthy a then a else b

/-- Outcome of one provider REST call, abstracting the four
`_generate_*` methods: arguments are provider, model, prompt,
temperature, max_tokens, api_key; an `error` is a raised exception. -/
def GenCall : Type :=
  String → String → String → Rat → Int → String → Except String String

/-- `LLMService._build_context(chunks)`: numbered source headers (page
shown only when truthy, i.e. nonzero) joined with a visible separator. -/
def LLMService.build_context (chunks : List SearchResult) : String :=
  String.intercalate "\n\n---\n\n" (chunks.enum.map fun p =>
    let i := p.1 + 1
    let nm := p.2.document_name
    let pg := p.2.page_number
    let source_info := s!"[Source {i}: {nm}]" ++
      (if pg ≠ 0 then s!" (Page {pg})" else "")
    source_info ++ "\n" ++ p.2.content)

/-- The fixed system instruction of `LLMService._build_prompt` (verbatim,
including the mojibake bullet of the source file). -/
def LLMService.systemPrompt : String :=
  "You are DocQuery AI, an intelligent document assistant. Answer questions based on the provided document context.\n\nCRITICAL FORMATTING RULES (MUST FOLLOW):\n- Add a BLANK LINE between each paragraph and section for readability\n- Use **bold** for key terms, names, and important information\n- Use bullet points (â€¢) or numbered lists when listing multiple items\n- Use markdown headings (## or ###) to organize different topics\n- Keep each paragraph short (2-3 sentences max)\n- DO NOT include source citations like \"(Source 1, Source 2)\" - sources are shown separately\n\nRESPONSE GUIDELINES:\n1. Answer based ONLY on the provided context\n2. If no relevant info found, say \"I couldn\x27t find information about that in the provided documents.\"\n3. Be concise - get to the point quickly, generate short responses but contains required information.\n4. Synthesize information naturally\n5. Use a professional, helpful tone"

/-- `LLMService._build_prompt(query, context, chat_history)`: system
instruction, up to the last five history turns, the context block, the
question, and the response header, joined with newlines. -/
def LLMService.build_prompt (query context : String)
    (chat_history : Option (List ChatMsg)) : String :=
  let prompt_parts := [LLMService.systemPrompt]
  let prompt_parts := match chat_history with
    | some h =>
      if ¬ h.isEmpty then
        prompt_parts ++ ["\n## Previous Conversation:"] ++
          ((h.drop (h.length - 5)).map fun msg =>
            (if msg.role = "user" then "User" else "Assistant") ++ ": " ++ msg.content)
      else prompt_parts
    | none => prompt_parts
  let prompt_parts := prompt_parts ++
    ["\n## Document Context:\n" ++ context,
     "\n## User Question:\n" ++ query,
     "\n## Your Response:"]
  String.intercalate "\n" prompt_parts

/-- `LLMService._fallback_response(query, chunks)`: the canned
evidence-listing answer used when no generation is possible — up to three
snippets (content truncated to 500 characters) under their document
names, with a note that AI synthesis is unavailable. -/
def LLMService.fallback_response (query : String) (chunks : List SearchResult) :
    String :=
  if chunks.isEmpty then
    "I couldn\x27t find any relevant information in your documents to answer this question."
  else
    let response_parts :=
      ["Based on your documents, I found the following relevant information:\n"]
    let response_parts := response_parts ++ ((chunks.take 3).enum.map fun p =>
      let i := p.1 + 1
      let doc_name := p.2.document_name
      let content := strTake p.2.content 500
      let content := if 500 < p.2.content.data.length then content ++ "..." else content
      s!"\n**Source {i}: {doc_name}**\n{content}\n")
    let response_parts := response_parts ++
      ["\n*Note: AI-powered response generation is not available. Please configure an LLM provider for more intelligent answers.*"]
    String.intercalate "\n" response_parts

/-- `LLMService._generate_async`: dispatch on the provider name to one of
the four REST backends (abstracted as `call`); an unknown provider name
RETURNS the string `"LLM provider not supported"` (it does not raise). -/
def LLMService.generate_async (provider model prompt : String)
    (temperature : Rat) (max_tokens : Int) (api_key : String)
    (call : GenCall) : Except String String :=
  if provider = "groq" ∨ provider = "openai" ∨ provider = "anthropic" ∨
      provider = "gemini" then
    call provider model prompt temperature max_tokens api_key
  else .ok "LLM provider not supported"

/-- `LLMService.generate_response`: resolve provider/model/key from the
optional user settings (default provider groq with the system groq key);
if the resolved key is unusable and the provider is not groq, fall back
to groq with the system key; with no usable key at all return the canned
fallback; otherwise build the prompt and call the provider, returning
the canned fallback if the call raises.  `default_groq_key` /
`default_gemini_key` model `settings.GROQ_API_KEY` /
`settings.GEMINI_API_KEY`. -/
def LLMService.generate_response
    (default_groq_key default_gemini_key : Option String) (call : GenCall)
    (query : String) (context_chunks : List SearchResult)
    (chat_history : Option (List ChatMsg) := none)
    (user_settings : Option UserSettings := none) : String :=
  let provider := "groq"
  let model := "llama-3.3-70b-versatile"
  let temperature : Rat := 7/10
  let max_tokens : Int := 4096
  let api_key := default_groq_key
  let resolved :=
    match user_settings with
    | none => (provider, model, temperature, max_tokens, api_key)
    | some us =>
      let provider := us.llm_provider.getD provider
      let model := us.llm_model.getD model
      let temperature := us.temperature.getD temperature
      let max_tokens := us.max_tokens.getD max_tokens
      let api_key :=
        if provider = "openai" then us.openai_api_key
        else if provider = "anthropic" then us.anthropic_api_key
        else if provider = "gemini" then pyOrStr us.gemini_api_key default_gemini_key
        else if provider = "groq" then default_groq_key
        else api_key
      (provider, model, temperature, max_tokens, api_key)
  let (provider, model, temperature, max_tokens, api_key) := resolved
  let rerouted :=
    if ¬ pyTruthy api_key ∧ provider ≠ "groq" then
      ("groq", "llama-3.3-70b-versatile", default_groq_key)
    else (provider, model, api_key)
  let (provider, model, api_key) := rerouted
  if ¬ pyTruthy api_key then LLMService.fallback_response query context_chunks
  else
    let context := LLMService.build_context context_chunks
    let prompt := LLMService.build_prompt query context chat_history
    match LLMService.generate_async provider model prompt temperature max_tokens
        (api_key.getD "") call with
    | .ok response => response
    | .error _ => LLMService.fallback_response query context_chunks

/-! ## Document ingestion coordinator (`app/services/document_service.py`,
`app/api/documents.py`) -/

/-- `DocumentStatus` from `app/models/document.py`. -/
inductive DocumentStatus
  | pending
  | processing
  | completed
  | failed
  deriving DecidableEq, Repr

/-- The fields of a `Document` row that `process_document` and the
reprocess endpoint read or write. -/
structure DocRecord where
  id : Int
  user_id : Int
  original_filename : String
  status : DocumentStatus
  error_message : Option String := none
  chunk_count : Option Nat := none
  processed_at : Bool := false
  deriving DecidableEq, Repr

/-- The `except` handler of `process_document`: mark FAILED and store the
exception message (other fields keep whatever was set before the raise). -/
def failDoc (d : DocRecord) (e : String) : DocRecord :=
  { d with status := DocumentStatus.failed, error_message := some e }

/-- `DocumentService.process_document`: extract text (fallible external
call `extractRes`), reject empty extraction with a `ValueError`, chunk
with `chunk_text`, persist the chunk rows (`persistRes` models the DB
flush), embed and insert into the vector index (`addChunks`, threading a
vector-store state `σ`), then mark COMPLETED with the chunk count and
flush (`completeFlushRes`).  Any exception marks the document FAILED
with the message stored and is re-raised (the `.error` component).
The post-completion summarization call is wrapped in its own
try/except in the source and never affects the outcome, so it is
omitted here. -/
def DocumentService.process_document {σ : Type}
    (document : DocRecord) (vs : σ)
    (extractRes : Except String String)
    (persistRes : Except String Unit)
    (addChunks : σ → List RawChunk → Except String (σ × List String))
    (completeFlushRes : Except String Unit) :
    DocRecord × σ × Except String Unit :=
  let document := { document with status := DocumentStatus.processing }
  match extractRes with
  | .error e => (failDoc document e, vs, .error e)
  | .ok text =>
    if ¬ pyTruthyStr text ∨ (pyStrip text.data).length = 0 then
      let e := "No text could be extracted from the document"
      (failDoc document e, vs, .error e)
    else
      let chunks := chunk_text text
      match persistRes with
      | .error e => (failDoc document e, vs, .error e)
      | .ok _ =>
        match addChunks vs chunks with
        | .error e => (failDoc document e, vs, .error e)
        | .ok (vs2, _milvus_ids) =>
          let document :=
            { document with
              status := DocumentStatus.completed
              chunk_count := some chunks.length
              processed_at := true }
          match completeFlushRes with
          | .error e => (failDoc document e, vs2, .error e)
          | .ok _ => (document, vs2, .ok ())

/-- The `POST /documents/{id}/reprocess` endpoint
(`app/api/documents.py`): reject documents that are neither FAILED nor
PENDING with HTTP 400, otherwise reset status and error message and run
`process_document` again — against the vector store as it is: no
existing vector records are deleted first. -/
def reprocess_document (document : DocRecord) (store : List MilvusRow)
    (extractRes : Except String String)
    (persistRes : Except String Unit)
    (embedRes : Except String (List (List Rat)))
    (insertRes : Except String (List String))
    (completeFlushRes : Except String Unit) :
    Except String (DocRecord × List MilvusRow × Except String Unit) :=
  if document.status ≠ DocumentStatus.failed ∧
      document.status ≠ DocumentStatus.pending then
    .error "Only failed or pending documents can be reprocessed"
  else
    let document :=
      { document with
        status := DocumentStatus.pending
        error_message := none }
    .ok (DocumentService.process_document document store extractRes persistRes
      (fun st chunks => MilvusService.add_chunks st chunks document.id
        document.user_id document.original_filename embedRes insertRes)
      completeFlushRes)

/-! ## Word-level view of chunks (the spec side of claim C3) -/

/-- The words of a string, Python `str.split()` style. -/
def wordsOfStr (s : String) : List String :=
  (pyWords [] s.data).map (fun l => ⟨l⟩)

/-- The claimed word-overlap invariant: for every pair of consecutive
chunks, the last `n` words of the former equal the first `n` words of
the latter. -/
def wordOverlapInv (n : Nat) : List RawChunk → Bool
  | a :: b :: rest =>
    (let wa := wordsOfStr a.content
     let wb := wordsOfStr b.content
     decide (wa.drop (wa.length - n) = wb.take n)) && wordOverlapInv n (b :: rest)
  | _ => true

/-- A concrete 1119-character, 200-word document: twenty ten-word
sentences with pairwise distinct words (word `j` of sentence `i` is
`w{i}x{j}`). -/
def c3Text : String :=
  "w0x0 w0x1 w0x2 w0x3 w0x4 w0x5 w0x6 w0x7 w0x8 w0x9. w1x0 w1x1 w1x2 w1x3 w1x4 w1x5 w1x6 w1x7 w1x8 w1x9. w2x0 w2x1 w2x2 w2x3 w2x4 w2x5 w2x6 w2x7 w2x8 w2x9. w3x0 w3x1 w3x2 w3x3 w3x4 w3x5 w3x6 w3x7 w3x8 w3x9. w4x0 w4x1 w4x2 w4x3 w4x4 w4x5 w4x6 w4x7 w4x8 w4x9. w5x0 w5x1 w5x2 w5x3 w5x4 w5x5 w5x6 w5x7 w5x8 w5x9. w6x0 w6x1 w6x2 w6x3 w6x4 w6x5 w6x6 w6x7 w6x8 w6x9. w7x0 w7x1 w7x2 w7x3 w7x4 w7x5 w7x6 w7x7 w7x8 w7x9. w8x0 w8x1 w8x2 w8x3 w8x4 w8x5 w8x6 w8x7 w8x8 w8x9. w9x0 w9x1 w9x2 w9x3 w9x4 w9x5 w9x6 w9x7 w9x8 w9x9. w10x0 w10x1 w10x2 w10x3 w10x4 w10x5 w10x6 w10x7 w10x8 w10x9. w11x0 w11x1 w11x2 w11x3 w11x4 w11x5 w11x6 w11x7 w11x8 w11x9. w12x0 w12x1 w12x2 w12x3 w12x4 w12x5 w12x6 w12x7 w12x8 w12x9. w13x0 w13x1 w13x2 w13x3 w13x4 w13x5 w13x6 w13x7 w13x8 w13x9. w14x0 w14x1 w14x2 w14x3 w14x4 w14x5 w14x6 w14x7 w14x8 w14x9. w15x0 w15x1 w15x2 w15x3 w15x4 w15x5 w15x6 w15x7 w15x8 w15x9. w16x0 w16x1 w16x2 w16x3 w16x4 w16x5 w16x6 w16x7 w16x8 w16x9. w17x0 w17x1 w17x2 w17x3 w17x4 w17x5 w17x6 w17x7 w17x8 w17x9. w18x0 w18x1 w18x2 w18x3 w18x4 w18x5 w18x6 w18x7 w18x8 w18x9. w19x0 w19x1 w19x2 w19x3 w19x4 w19x5 w19x6 w19x7 w19x8 w19x9."

/-! ## Shared lemmas about rounding and the confidence computation -/

/-- `roundHalfEven` maps `[0, 1000]` into `[0, 1000]`. -/
theorem roundHalfEven_bounds {q : Rat} (h0 : 0 ≤ q) (h1 : q ≤ 1000) :
    0 ≤ roundHalfEven q ∧ roundHalfEven q ≤ 1000 := by
  unfold roundHalfEven
  have hf0 : (0 : Int) ≤ ⌊q⌋ := Int.floor_nonneg.mpr h0
  have hfq : (⌊q⌋ : Rat) ≤ q := Int.floor_le q
  have hft : ⌊q⌋ ≤ 1000 := by
    have h := Int.floor_le_floor (α := Rat) h1
    simpa using h
  split_ifs with hlt hgt hev
  · exact ⟨hf0, hft⟩
  · refine ⟨by omega, ?_⟩
    have hq : (⌊q⌋ : Rat) < 1000 := by linarith
    have : ⌊q⌋ < 1000 := by exact_mod_cast hq
    omega
  · exact ⟨hf0, hft⟩
  · refine ⟨by omega, ?_⟩
    have heq : q - ⌊q⌋ = 1/2 := le_antisymm (not_lt.mp hgt) (not_lt.mp hlt)
    have hq : (⌊q⌋ : Rat) < 1000 := by linarith
    have : ⌊q⌋ < 1000 := by exact_mod_cast hq
    omega

/-- Rounding to three decimals stays inside `[0, 1]`. -/
theorem pyRound3_bounds {q : Rat} (h0 : 0 ≤ q) (h1 : q ≤ 1) :
    0 ≤ pyRound3 q ∧ pyRound3 q ≤ 1 := by
  have h := roundHalfEven_bounds (q := q * 1000) (by positivity) (by linarith)
  unfold pyRound3
  constructor
  · apply div_nonneg _ (by norm_num)
    exact_mod_cast h.1
  · rw [div_le_one (by norm_num)]
    exact_mod_cast h.2

/-- For a nonempty result list the weight denominator of
`calculate_confidence` is positive (the rank-1 weight `1.0` is always
used), so the guard `weight_total == 0` is dead there. -/
theorem conf_wt_pos (r : SearchResult) (t : List SearchResult) :
    0 < ((((r :: t).take 5).zip [(1:Rat), 8/10, 6/10, 4/10, 2/10]).map
      (fun p => p.2)).sum := by
  have hz : ((r :: t).take 5).zip [(1:Rat), 8/10, 6/10, 4/10, 2/10] =
      (r, (1:Rat)) :: ((t.take 4).zip [8/10, 6/10, 4/10, 2/10]) := by
    simp [List.take_succ_cons, List.zip_cons_cons]
  rw [hz]
  simp only [List.map_cons, List.sum_cons]
  have hnn : 0 ≤ (((t.take 4).zip [(8:Rat)/10, 6/10, 4/10, 2/10]).map
      (fun p => p.2)).sum := by
    apply List.sum_nonneg
    intro x hx
    obtain ⟨⟨a, b⟩, hp, rfl⟩ := List.mem_map.mp hx
    have hb := (List.of_mem_zip hp).2
    fin_cases hb <;> norm_num
  linarith

/-- Closed form of `calculate_confidence` on a nonempty list: the rounded
`min` of `1` and the weighted average. -/
theorem conf_formula (r : SearchResult) (t : List SearchResult) :
    calculate_confidence (r :: t) =
      pyRound3 (min 1
        (((((r :: t).take 5).zip [(1:Rat), 8/10, 6/10, 4/10, 2/10]).map
            (fun p => p.1.score * p.2)).sum /
          ((((r :: t).take 5).zip [(1:Rat), 8/10, 6/10, 4/10, 2/10]).map
            (fun p => p.2)).sum)) := by
  unfold calculate_confidence
  simp only [List.isEmpty_cons, Bool.false_eq_true, if_false]
  rw [show ([(1:Rat), 8/10, 6/10, 4/10, 2/10]).length = 5 from rfl]
  rw [if_neg (conf_wt_pos r t).ne']

/-- When every input score lies in `[0, 1]` the confidence lies in
`[0, 1]` as well. -/
theorem conf_bounds (results : List SearchResult)
    (hsc : ∀ r ∈ results, 0 ≤ r.score ∧ r.score ≤ 1) :
    0 ≤ calculate_confidence results ∧ calculate_confidence results ≤ 1 := by
  cases results with
  | nil => simp [calculate_confidence]
  | cons r t =>
    rw [conf_formula r t]
    have hws : 0 ≤ ((((r :: t).take 5).zip [(1:Rat), 8/10, 6/10, 4/10, 2/10]).map
        (fun p => p.1.score * p.2)).sum := by
      apply List.sum_nonneg
      intro x hx
      obtain ⟨⟨a, b⟩, hp, rfl⟩ := List.mem_map.mp hx
      have ha := List.take_subset 5 (r :: t) (List.of_mem_zip hp).1
      have hb := (List.of_mem_zip hp).2
      apply mul_nonneg (hsc a ha).1
      fin_cases hb <;> norm_num
    have hq0 : 0 ≤ min 1 (((((r :: t).take 5).zip [(1:Rat), 8/10, 6/10, 4/10, 2/10]).map
        (fun p => p.1.score * p.2)).sum /
        ((((r :: t).take 5).zip [(1:Rat), 8/10, 6/10, 4/10, 2/10]).map
          (fun p => p.2)).sum) := by
      refine le_min (by norm_num) ?_
      exact div_nonneg hws (conf_wt_pos r t).le
    exact pyRound3_bounds hq0 (min_le_left _ _)

/-! ## Claim C2 — confidence score -/

/-- C2, counterexample: `calculate_confidence` does NOT clamp below at
`0`.  A single result with score `-1` (i.e. raw cosine distance `2`,
since the adapter sets `score = 1 - distance`) yields confidence `-1`,
outside the claimed interval `[0, 1]`. -/
theorem C2_confidence_counterexample :
    calculate_confidence [⟨"", "", 0, "", 0, 0, -1, 2⟩] = -1 ∧
      calculate_confidence [⟨"", "", 0, "", 0, 0, -1, 2⟩] < 0 := by
  constructor <;>
  · simp [calculate_confidence, pyRound3, roundHalfEven]
    norm_num [Int.fract]

/-- C2, amended: the confidence is the weighted average of the scores of
at most the first 5 results with weights `[1.0, 0.8, 0.6, 0.4, 0.2]` by
rank, divided by the sum of the weights actually used, capped above at
`1` (there is no lower clamp), and rounded to 3 decimals; the empty list
gives exactly `0.0`; and the value lies in `[0, 1]` whenever every input
score lies in `[0, 1]` (scores below `0` can escape the interval, as the
counterexample shows). -/
theorem C2_confidence_amended (results : List SearchResult) :
    calculate_confidence [] = 0 ∧
    (results ≠ [] →
      calculate_confidence results =
        pyRound3 (min 1
          ((((results.take 5).zip [(1:Rat), 8/10, 6/10, 4/10, 2/10]).map
              (fun p => p.1.score * p.2)).sum /
            (((results.take 5).zip [(1:Rat), 8/10, 6/10, 4/10, 2/10]).map
              (fun p => p.2)).sum))) ∧
    ((∀ r ∈ results, 0 ≤ r.score ∧ r.score ≤ 1) →
      0 ≤ calculate_confidence results ∧ calculate_confidence results ≤ 1) := by
  refine ⟨by simp [calculate_confidence], ?_, conf_bounds results⟩
  intro h
  obtain ⟨r, t, rfl⟩ : ∃ r t, results = r :: t := by
    cases results with
    | nil => exact absurd rfl h
    | cons r t => exact ⟨r, t, rfl⟩
  exact conf_formula r t

/-- C2 witness: the amended theorem applied at the concrete singleton
result list with score `0.9` gives confidence `0.9`, inside the bounds. -/
theorem C2_confidence_witness :
    calculate_confidence [⟨"", "", 0, "", 0, 0, 9/10, 1/10⟩] = 9/10 ∧
      0 ≤ calculate_confidence [⟨"", "", 0, "", 0, 0, 9/10, 1/10⟩] ∧
      calculate_confidence [⟨"", "", 0, "", 0, 0, 9/10, 1/10⟩] ≤ 1 := by
  refine ⟨?_, (C2_confidence_amended [⟨"", "", 0, "", 0, 0, 9/10, 1/10⟩]).2.2
    (by intro r hr; fin_cases hr <;> norm_num)⟩
  have h := (C2_confidence_amended [⟨"", "", 0, "", 0, 0, 9/10, 1/10⟩]).2.1
    (by simp)
  rw [h]
  simp
  norm_num [pyRound3, roundHalfEven, Int.fract]

/-! ## Shared lemmas about the chunker on whitespace-free input -/

/-- Whitespace collapsing is the identity on whitespace-free text. -/
theorem collapseWS_id (b : Bool) (l : List Char) (h : ∀ c ∈ l, pyIsSpace c = false) :
    collapseWS b l = l := by
  induction l generalizing b with
  | nil => simp [collapseWS]
  | cons c cs ih =>
    have hc := h c (by simp)
    simp [collapseWS, hc]
    exact ih false (fun x hx => h x (by simp [hx]))

/-- Newline collapsing is the identity on newline-free text. -/
theorem collapseNL_id (n : Nat) (l : List Char) (h : ∀ c ∈ l, ¬ c = '\n') :
    collapseNL n l = l := by
  induction l generalizing n with
  | nil => simp [collapseNL]
  | cons c cs ih =>
    have hc := h c (by simp)
    simp [collapseNL, hc]
    exact ih 0 (fun x hx => h x (by simp [hx]))

/-- Stripping is the identity on whitespace-free text. -/
theorem pyStrip_id (l : List Char) (h : ∀ c ∈ l, pyIsSpace c = false) :
    pyStrip l = l := by
  unfold pyStrip
  have h1 : l.dropWhile pyIsSpace = l := by
    cases l with
    | nil => rfl
    | cons c cs => rw [List.dropWhile_cons, if_neg (by simp [h c (by simp)])]
  rw [h1]
  have h2 : l.reverse.dropWhile pyIsSpace = l.reverse := by
    cases hr : l.reverse with
    | nil => rfl
    | cons c cs =>
      have hc : c ∈ l := by
        have hm : c ∈ l.reverse := by rw [hr]; simp
        simpa using hm
      rw [List.dropWhile_cons, if_neg (by simp [h c hc])]
  rw [h2, List.reverse_reverse]

/-- Splitting on blank lines returns a single paragraph when the text has
no newline at all. -/
theorem splitNN_no_nl (acc l : List Char) (h : ∀ c ∈ l, ¬ c = '\n') :
    splitNN acc l = [acc.reverse ++ l] := by
  induction l generalizing acc with
  | nil => simp [splitNN]
  | cons c cs ih =>
    have hc := h c (by simp)
    have hrec := ih (c :: acc) (fun x hx => h x (by simp [hx]))
    rw [splitNN.eq_def]
    split <;> simp_all

/-- The page-marker search fails on text containing no `[`. -/
theorem findPageNum_none (l : List Char) (h : ∀ c ∈ l, ¬ c = '[') :
    findPageNum l = none := by
  induction l with
  | nil => rfl
  | cons c cs ih =>
    have hc := h c (by simp)
    have hat : pageNumAt (c :: cs) = none := by
      unfold pageNumAt
      rw [if_neg]
      intro hcon
      rw [List.take_succ_cons] at hcon
      injection hcon with h1 _
      exact hc h1
    unfold findPageNum
    rw [hat]
    exact ih (fun x hx => h x (by simp [hx]))

/-- `chunk_text` on a single word (no whitespace, no bracket) of at most
1000 characters: one chunk containing the word when it reaches
`MIN_CHUNK_SIZE`, nothing otherwise. -/
theorem chunk_text_single_word (l : List Char) (h1 : l ≠ [])
    (h2 : ∀ c ∈ l, pyIsSpace c = false ∧ ¬ c = '[') (h3 : l.length ≤ 1000) :
    chunk_text ⟨l⟩ =
      if MIN_CHUNK_SIZE ≤ l.length then [⟨⟨l⟩, 0, none⟩] else [] := by
  have hsp : ∀ c ∈ l, pyIsSpace c = false := fun c hc => (h2 c hc).1
  have hnl : ∀ c ∈ l, ¬ c = '\n' := by
    intro c hc heq
    have hf := hsp c hc
    rw [heq] at hf
    simp [pyIsSpace] at hf
  have hbr : ∀ c ∈ l, ¬ c = '[' := fun c hc => (h2 c hc).2
  have hstrip : pyStrip l = l := pyStrip_id l hsp
  have hclean : clean_text ⟨l⟩ = ⟨l⟩ := by
    unfold clean_text
    rw [show (String.mk l).data = l from rfl, collapseWS_id false l hsp,
      collapseNL_id 0 l hnl, hstrip]
  have hparas : split_into_paragraphs ⟨l⟩ = [l] := by
    unfold split_into_paragraphs
    rw [show (String.mk l).data = l from rfl, splitNN_no_nl [] l hnl]
    simp [hstrip, h1]
  have hstep : chunkParaStep 1000 200 ⟨[], [], none⟩ l = ⟨[], l, none⟩ := by
    unfold chunkParaStep
    rw [findPageNum_none l hbr]
    rw [if_neg (by simpa using h3)]
    simp
  have hguard : ¬ (¬ pyTruthyStr ⟨l⟩ ∨ (pyStrip (String.mk l).data).length = 0) := by
    rw [show (String.mk l).data = l from rfl, hstrip]
    simp [pyTruthyStr, h1]
  unfold chunk_text
  rw [if_neg hguard]
  simp only [hclean, hparas, List.foldl_cons, List.foldl_nil, hstep]
  by_cases hm : MIN_CHUNK_SIZE ≤ l.length
  · rw [if_pos ⟨by simp [h1], by rw [hstrip]; exact hm⟩, if_pos hm]
    simp [hstrip]
  · rw [if_neg, if_neg hm]
    rw [hstrip]
    intro hcon
    exact hm hcon.2

/-! ## Claim C3 — chunk windows and overlap -/

set_option maxRecDepth 10000 in
/-- C3, counterexample: on the concrete 200-word document `c3Text` the
chunker produces two chunks (of 180 and 52 words — character-packed, not
200-word windows), and the last 30 words of the first chunk are NOT the
first 30 words of the second: the claimed word-overlap invariant fails. -/
theorem C3_word_overlap_counterexample :
    (chunk_text c3Text).length = 2 ∧
      wordOverlapInv 30 (chunk_text c3Text) = false := by
  decide

/-- The word-boundary trim shortens its input and yields a suffix. -/
theorem pyTrimOverlap_spec (ov : List Char) :
    (pyTrimOverlap ov).length ≤ ov.length ∧ pyTrimOverlap ov <:+ ov := by
  unfold pyTrimOverlap
  rcases hfi : ov.findIdx? (fun c => c = ' ') with _ | i
  · exact ⟨le_refl _, List.suffix_refl _⟩
  · dsimp only
    by_cases hcond : 0 < i ∧ i < ov.length / 2
    · rw [if_pos hcond]
      refine ⟨?_, List.drop_suffix _ _⟩
      rw [List.length_drop]
      omega
    · rw [if_neg hcond]
      exact ⟨le_refl _, List.suffix_refl _⟩

/-- C3, amended: the chunker's overlap is character-based, not
word-based: the carried-over text `get_overlap_text(prev, n)` that
starts the next chunk is a suffix of the previous chunk buffer of at
most `n` characters (for positive `n`), possibly trimmed at a word
boundary — consecutive chunks need not share any fixed number of words. -/
theorem C3_word_overlap_amended (t : List Char) (o : Nat) (ho : 0 < o) :
    (get_overlap_text t o).length ≤ o ∧ get_overlap_text t o <:+ t := by
  have h0 : ¬ o = 0 := Nat.pos_iff_ne_zero.mp ho
  unfold get_overlap_text
  split_ifs with hle
  · exact ⟨hle, List.suffix_refl t⟩
  · have hspec := pyTrimOverlap_spec (t.drop (t.length - o))
    refine ⟨le_trans hspec.1 ?_, hspec.2.trans (List.drop_suffix _ _)⟩
    rw [List.length_drop]
    omega

/-- C3 witness: the amended theorem at the concrete 22-character text and
overlap 10 (the overlap is `"pqrst"`, a 5-character suffix). -/
theorem C3_word_overlap_witness :
    (get_overlap_text "abcdefghij klmno pqrst".data 10).length ≤ 10 ∧
      get_overlap_text "abcdefghij klmno pqrst".data 10 <:+
        "abcdefghij klmno pqrst".data :=
  C3_word_overlap_amended "abcdefghij klmno pqrst".data 10 (by decide)

/-! ## Claim C4 — tail preservation -/

/-- C4, counterexample: a 1-word document produces ZERO chunks, not one —
the final (only) window is discarded because its 5 characters are below
`MIN_CHUNK_SIZE = 100`. -/
theorem C4_tail_counterexample :
    chunk_text "hello" = [] ∧ (chunk_text "hello").length ≠ 1 := by
  decide

/-- C4, amended: the chunker discards the final window when its stripped
length is below `MIN_CHUNK_SIZE` (100 characters) even when it is the
only window of the document: a single word (no whitespace, no `[`) of at
most 1000 characters yields one chunk containing it exactly when it has
at least 100 characters, and no chunk at all otherwise. -/
theorem C4_tail_amended (l : List Char) (h1 : l ≠ [])
    (h2 : ∀ c ∈ l, pyIsSpace c = false ∧ ¬ c = '[') (h3 : l.length ≤ 1000) :
    (l.length < MIN_CHUNK_SIZE → chunk_text ⟨l⟩ = []) ∧
      (MIN_CHUNK_SIZE ≤ l.length → chunk_text ⟨l⟩ = [⟨⟨l⟩, 0, none⟩]) := by
  rw [chunk_text_single_word l h1 h2 h3]
  constructor
  · intro hlt
    rw [if_neg (by omega)]
  · intro hge
    rw [if_pos hge]

/-- C4 witness: the amended theorem at the 5-character word `"hello"`
(zero chunks) and at a 100-character word (one chunk). -/
theorem C4_tail_witness :
    chunk_text "hello" = [] ∧
      chunk_text ⟨List.replicate 100 'a'⟩ =
        [⟨⟨List.replicate 100 'a'⟩, 0, none⟩] := by
  constructor
  · exact (C4_tail_amended "hello".data (by decide) (by decide) (by decide)).1
      (by decide)
  · exact (C4_tail_amended (List.replicate 100 'a') (by decide) (by decide)
      (by decide)).2 (by decide)

/-! ## Shared lemmas about the search ranking -/

/-- Insertion into the ranked list preserves membership. -/
theorem mem_insertByDist (dist : MilvusRow → Rat) (r x : MilvusRow)
    (l : List MilvusRow) : x ∈ insertByDist dist r l ↔ x ∈ r :: l := by
  induction l with
  | nil => simp [insertByDist]
  | cons y ys ih =>
    unfold insertByDist
    by_cases h : dist r < dist y
    · rw [if_pos h]
    · rw [if_neg h]
      simp only [List.mem_cons, ih]
      tauto

/-- Ranking by distance preserves membership. -/
theorem mem_sortByDist (dist : MilvusRow → Rat) (l : List MilvusRow)
    (x : MilvusRow) : x ∈ sortByDist dist l ↔ x ∈ l := by
  induction l with
  | nil => simp [sortByDist]
  | cons y ys ih =>
    unfold sortByDist at ih ⊢
    rw [List.foldr_cons, mem_insertByDist]
    simp [ih]

/-! ## Claim C1 — tenant isolation of the vector search -/

/-- C1: every row the vector search returns for tenant `uidA` carries
`user_id = uidA` — the filter `"user_id == {user_id}"` is always
conjoined, `user_id` is a mandatory parameter — so for any second tenant
`uidB ≠ uidA`, any query ranking `dist`, and any optional `document_ids`
scope, no returned record is owned by `uidB`; the formatted results are
exactly the formatted hit rows. -/
theorem C1_tenant_isolation (store : List MilvusRow) (dist : MilvusRow → Rat)
    (idAssign : MilvusRow → String) (uidA uidB : Int)
    (document_ids : Option (List Int)) (limit : Nat) (hAB : uidB ≠ uidA) :
    (∀ r ∈ MilvusService.search_hits store dist uidA document_ids limit,
      r.user_id = uidA) ∧
    (∀ r ∈ MilvusService.search_hits store dist uidA document_ids limit,
      r.user_id ≠ uidB) ∧
    MilvusService.search store dist idAssign uidA document_ids limit =
      (MilvusService.search_hits store dist uidA document_ids limit).map
        (MilvusService.format_hit dist idAssign) := by
  have hmain : ∀ r ∈ MilvusService.search_hits store dist uidA document_ids limit,
      r.user_id = uidA := by
    intro r hr
    unfold MilvusService.search_hits at hr
    have h1 := List.take_subset limit _ hr
    have h2 : r ∈ store.filter (MilvusService.filterMatch uidA document_ids) :=
      (mem_sortByDist dist _ r).mp h1
    have h3 := List.of_mem_filter h2
    simp only [MilvusService.filterMatch, Bool.and_eq_true, beq_iff_eq] at h3
    exact h3.1
  refine ⟨hmain, ?_, rfl⟩
  intro r hr
  rw [hmain r hr]
  exact fun hcon => hAB hcon.symm

/-- C1 witness: a concrete two-row store holding one row for tenant 1 and
one for tenant 2; a search scoped to tenant 1 returns only tenant-1 rows. -/
theorem C1_tenant_isolation_witness :
    (∀ r ∈ MilvusService.search_hits
        [⟨"a", 10, 1, 0, "d1", 0, []⟩, ⟨"b", 20, 2, 0, "d2", 0, []⟩]
        (fun _ => 0) 1 none 3, r.user_id = 1) ∧
    (∀ r ∈ MilvusService.search_hits
        [⟨"a", 10, 1, 0, "d1", 0, []⟩, ⟨"b", 20, 2, 0, "d2", 0, []⟩]
        (fun _ => 0) 1 none 3, r.user_id ≠ 2) ∧
    MilvusService.search
        [⟨"a", 10, 1, 0, "d1", 0, []⟩, ⟨"b", 20, 2, 0, "d2", 0, []⟩]
        (fun _ => 0) (fun _ => "") 1 none 3 =
      (MilvusService.search_hits
        [⟨"a", 10, 1, 0, "d1", 0, []⟩, ⟨"b", 20, 2, 0, "d2", 0, []⟩]
        (fun _ => 0) 1 none 3).map
        (MilvusService.format_hit (fun _ => 0) (fun _ => "")) :=
  C1_tenant_isolation
    [⟨"a", 10, 1, 0, "d1", 0, []⟩, ⟨"b", 20, 2, 0, "d2", 0, []⟩]
    (fun _ => 0) (fun _ => "") 1 2 none 3 (by decide)

/-! ## Claim C10 — page-number metadata -/

/-- C10, counterexample: a chunk with `page_number = None` is stored with
the substituted numeric value `0` (`int(chunk.get("page_number") or 0)`),
and the search formatter likewise reports `0` for that stored row — the
`None` is not preserved through indexing and retrieval. -/
theorem C10_page_counterexample :
    (MilvusService.add_chunks_rows [⟨"c", 0, none⟩] 1 2 "d" [[]]).map
        (fun r => r.page_number) = [0] ∧
      (MilvusService.format_hit (fun _ => 0) (fun _ => "")
        ⟨"c", 1, 2, 0, "d", 0, []⟩).page_number = 0 := by
  constructor
  · rfl
  · rfl

/-- C10, amended: the vector record stores
`page_number = int(page or 0)` — `None` (and `0`) become the numeric `0`
— and retrieval passes the stored numeric value through unchanged (the
result dictionary always carries a numeric `page_number`; absence is not
representable). -/
theorem C10_page_amended (chunks : List RawChunk) (docid uid : Int)
    (name : String) (embeddings : List (List Rat)) :
    (MilvusService.add_chunks_rows chunks docid uid name embeddings).map
        (fun r => r.page_number) =
      chunks.map (fun ch => Int.ofNat (ch.page_number.getD 0)) ∧
    (MilvusService.add_chunks_rows [⟨"c", 7, none⟩] docid uid name
        embeddings).map (fun r => r.page_number) = [0] ∧
    (∀ (store : List MilvusRow) (dist : MilvusRow → Rat)
        (idAssign : MilvusRow → String) (uid2 : Int)
        (dids : Option (List Int)) (lim : Nat),
      (MilvusService.search store dist idAssign uid2 dids lim).map
          (fun r => r.page_number) =
        (MilvusService.search_hits store dist uid2 dids lim).map
          (fun r => r.page_number)) := by
  have hrows : ∀ (l : List RawChunk) (k : Nat),
      ((List.enumFrom k l).map (fun p =>
        (MilvusService.add_chunks_rows [] docid uid name [] , Int.ofNat (p.2.page_number.getD 0)).2)) =
      l.map (fun ch => Int.ofNat (ch.page_number.getD 0)) := by
    intro l
    induction l with
    | nil => intro k; rfl
    | cons ch t ih =>
      intro k
      simp only [List.enumFrom, List.map_cons, ih]
  refine ⟨?_, ?_, ?_⟩
  · unfold MilvusService.add_chunks_rows
    rw [List.map_map]
    exact hrows chunks 0
  · rfl
  · intro store dist idAssign uid2 dids lim
    unfold MilvusService.search
    rw [List.map_map]
    rfl

/-! ## Claim C9 — reprocess does not delete old vectors -/

/-- Whatever the outcomes of its steps, `process_document` only ever
APPENDS to the vector store: the store it returns is the input store
plus the rows inserted by `MilvusService.add_chunks` (empty on any
failure). -/
theorem process_document_appends (docid uid : Int) (name : String)
    (document : DocRecord) (store : List MilvusRow)
    (extractRes : Except String String) (persistRes : Except String Unit)
    (embedRes : Except String (List (List Rat)))
    (insertRes : Except String (List String))
    (completeFlushRes : Except String Unit) :
    ∃ added, (DocumentService.process_document document store extractRes
      persistRes (fun st chunks => MilvusService.add_chunks st chunks docid uid
        name embedRes insertRes) completeFlushRes).2.1 = store ++ added := by
  unfold DocumentService.process_document MilvusService.add_chunks
  cases extractRes with
  | error e => exact ⟨[], by simp⟩
  | ok text =>
    dsimp only
    split_ifs with hg
    · exact ⟨[], by simp⟩
    · cases persistRes with
      | error e => exact ⟨[], by simp⟩
      | ok u =>
        dsimp only
        cases embedRes with
        | error e => exact ⟨[], by simp⟩
        | ok embeddings =>
          dsimp only
          cases insertRes with
          | error e => exact ⟨[], by simp⟩
          | ok ids =>
            dsimp only
            cases completeFlushRes with
            | error e => exact ⟨_, rfl⟩
            | ok u2 => exact ⟨_, rfl⟩

/-- C9, counterexample: reprocessing a FAILED document whose old vector
record is still in the store leaves that record in place and appends a
new one — afterwards the store holds TWO records for document 1 with the
same `chunk_index`, the stale one included; nothing was deleted first. -/
theorem C9_reprocess_counterexample :
    reprocess_document
        ⟨1, 2, "doc.txt", DocumentStatus.failed, some "boom", some 1, true⟩
        [⟨"old", 1, 2, 0, "doc.txt", 0, []⟩]
        (Except.ok ⟨List.replicate 100 'a'⟩) (Except.ok ())
        (Except.ok [[]]) (Except.ok ["id9"]) (Except.ok ()) =
      Except.ok
        (⟨1, 2, "doc.txt", DocumentStatus.completed, none, some 1, true⟩,
          [⟨"old", 1, 2, 0, "doc.txt", 0, []⟩,
            ⟨⟨List.replicate 100 'a'⟩, 1, 2, 0, "doc.txt", 0, []⟩],
          Except.ok ()) ∧
      (⟨"old", 1, 2, 0, "doc.txt", 0, []⟩ : MilvusRow) ∈
        [(⟨"old", 1, 2, 0, "doc.txt", 0, []⟩ : MilvusRow),
          ⟨⟨List.replicate 100 'a'⟩, 1, 2, 0, "doc.txt", 0, []⟩] := by
  constructor
  · rfl
  · simp

/-- C9, amended: the reprocess endpoint never deletes existing vector
records: it only re-runs processing, whose vector insertion appends to
the store — every record present before reprocessing is still present
after, and the store grows by exactly the newly inserted rows
(`MilvusService.delete_document_chunks` is not invoked on this path). -/
theorem C9_reprocess_amended (document : DocRecord) (store : List MilvusRow)
    (extractRes : Except String String) (persistRes : Except String Unit)
    (embedRes : Except String (List (List Rat)))
    (insertRes : Except String (List String))
    (completeFlushRes : Except String Unit)
    (doc' : DocRecord) (store' : List MilvusRow)
    (res : Except String Unit)
    (h : reprocess_document document store extractRes persistRes embedRes
      insertRes completeFlushRes = .ok (doc', store', res)) :
    (∃ added, store' = store ++ added) ∧ ∀ r ∈ store, r ∈ store' := by
  unfold reprocess_document at h
  split_ifs at h with hguard
  dsimp only at h
  rw [Except.ok.injEq] at h
  have hstore := congrArg
    (fun t : DocRecord × List MilvusRow × Except String Unit => t.2.1) h
  dsimp only at hstore
  obtain ⟨added, hadd⟩ := process_document_appends document.id
    document.user_id document.original_filename _ store extractRes
    persistRes embedRes insertRes completeFlushRes
  have hs : store' = store ++ added := by rw [← hstore, hadd]
  refine ⟨⟨added, hs⟩, ?_⟩
  intro r hr
  rw [hs]
  exact List.mem_append_left added hr

/-- C9 witness: the amended theorem applied to a concrete reprocess of a
FAILED document whose extraction fails — the endpoint accepts it and the
store is unchanged (in particular preserved). -/
theorem C9_reprocess_witness :
    (∃ added, [(⟨"old", 1, 2, 0, "doc.txt", 0, []⟩ : MilvusRow)] =
      [⟨"old", 1, 2, 0, "doc.txt", 0, []⟩] ++ added) ∧
    ∀ r ∈ [(⟨"old", 1, 2, 0, "doc.txt", 0, []⟩ : MilvusRow)],
      r ∈ [(⟨"old", 1, 2, 0, "doc.txt", 0, []⟩ : MilvusRow)] :=
  C9_reprocess_amended
    ⟨1, 2, "doc.txt", DocumentStatus.failed, some "boom", none, false⟩
    [⟨"old", 1, 2, 0, "doc.txt", 0, []⟩]
    (.error "download failed") (.ok ()) (.ok [[]]) (.ok []) (.ok ())
    ⟨1, 2, "doc.txt", DocumentStatus.failed, some "download failed", none, false⟩
    [⟨"old", 1, 2, 0, "doc.txt", 0, []⟩] (.error "download failed")
    (by rfl)

/-! ## Claim C7 — ingestion failure handling -/

/-- C7: whenever `process_document` re-raises an exception `e` (the
run's `Except` component is `.error e`) — extraction failure, empty
extraction, chunk-persistence failure, embedding/vector-insertion
failure, or the final flush — the document ends with status FAILED and
`error_message = some e`; in particular it is never left COMPLETED. -/
theorem C7_ingestion_failure {σ : Type} (document : DocRecord) (vs : σ)
    (extractRes : Except String String) (persistRes : Except String Unit)
    (addChunks : σ → List RawChunk → Except String (σ × List String))
    (completeFlushRes : Except String Unit) (e : String)
    (h : (DocumentService.process_document document vs extractRes persistRes
      addChunks completeFlushRes).2.2 = .error e) :
    (DocumentService.process_document document vs extractRes persistRes
      addChunks completeFlushRes).1.status = DocumentStatus.failed ∧
    (DocumentService.process_document document vs extractRes persistRes
      addChunks completeFlushRes).1.error_message = some e ∧
    (DocumentService.process_document document vs extractRes persistRes
      addChunks completeFlushRes).1.status ≠ DocumentStatus.completed := by
  have hfc : DocumentStatus.failed ≠ DocumentStatus.completed := by decide
  unfold DocumentService.process_document at h ⊢
  cases extractRes with
  | error e0 =>
    simp only [Except.error.injEq] at h
    subst h
    exact ⟨rfl, rfl, hfc⟩
  | ok text =>
    dsimp only at h ⊢
    split_ifs at h ⊢ with hg
    · simp only [Except.error.injEq] at h
      subst h
      exact ⟨rfl, rfl, hfc⟩
    · cases persistRes with
      | error e0 =>
        simp only [Except.error.injEq] at h
        subst h
        exact ⟨rfl, rfl, hfc⟩
      | ok u =>
        dsimp only at h ⊢
        generalize haddc : addChunks vs (chunk_text text) = ac at h ⊢
        cases ac with
        | error e0 =>
          simp only [Except.error.injEq] at h
          subst h
          exact ⟨rfl, rfl, hfc⟩
        | ok pr =>
          cases pr with
          | mk vs2 ids =>
            dsimp only at h ⊢
            cases completeFlushRes with
            | error e0 =>
              simp only [Except.error.injEq] at h
              subst h
              exact ⟨rfl, rfl, hfc⟩
            | ok u2 => exact absurd h (by simp)

/-- C7 witness: a concrete pending document whose extraction raises
`"boom"` ends FAILED with the message stored. -/
theorem C7_ingestion_failure_witness :
    (DocumentService.process_document
      ⟨1, 2, "a.txt", DocumentStatus.pending, none, none, false⟩ ()
      (.error "boom") (.ok ()) (fun st _ => .ok (st, [])) (.ok ())).1.status =
        DocumentStatus.failed ∧
    (DocumentService.process_document
      ⟨1, 2, "a.txt", DocumentStatus.pending, none, none, false⟩ ()
      (.error "boom") (.ok ()) (fun st _ => .ok (st, [])) (.ok ())).1.error_message =
        some "boom" ∧
    (DocumentService.process_document
      ⟨1, 2, "a.txt", DocumentStatus.pending, none, none, false⟩ ()
      (.error "boom") (.ok ()) (fun st _ => .ok (st, [])) (.ok ())).1.status ≠
        DocumentStatus.completed :=
  C7_ingestion_failure
    ⟨1, 2, "a.txt", DocumentStatus.pending, none, none, false⟩ ()
    (.error "boom") (.ok ()) (fun st _ => .ok (st, [])) (.ok ()) "boom" (by rfl)

/-! ## Claim C8 — zero text and zero chunks -/

/-- C8, counterexample: extraction yielding the non-empty text
`"short"` produces ZERO chunks (5 characters < `MIN_CHUNK_SIZE`), yet
with all external calls succeeding the document transitions to
COMPLETED with `chunk_count = 0` — the zero-chunks condition is NOT
treated as a failure. -/
theorem C8_zero_chunks_counterexample :
    DocumentService.process_document
        ⟨1, 2, "a.txt", DocumentStatus.pending, none, none, false⟩ ()
        (.ok "short") (.ok ()) (fun st _ => .ok (st, [])) (.ok ()) =
      (⟨1, 2, "a.txt", DocumentStatus.completed, none, some 0, true⟩, (),
        .ok ()) ∧
    chunk_text "short" = [] := by
  exact ⟨rfl, rfl⟩

/-- C8, amended: zero extracted text IS treated as a failure — the
`ValueError` message is stored and the document ends FAILED — but zero
chunks is not checked: when the text survives the emptiness check yet
chunks to `[]`, and the persistence, embedding/insert and flush calls
succeed, the document transitions to COMPLETED with `chunk_count = 0`. -/
theorem C8_zero_amended {σ : Type} (document : DocRecord) (vs : σ)
    (persistRes : Except String Unit)
    (addChunks : σ → List RawChunk → Except String (σ × List String))
    (completeFlushRes : Except String Unit) (text : String) (vs2 : σ)
    (ids : List String) :
    ((¬ pyTruthyStr text ∨ (pyStrip text.data).length = 0) →
      (DocumentService.process_document document vs (.ok text) persistRes
        addChunks completeFlushRes).1.status = DocumentStatus.failed ∧
      (DocumentService.process_document document vs (.ok text) persistRes
        addChunks completeFlushRes).1.error_message =
        some "No text could be extracted from the document" ∧
      (DocumentService.process_document document vs (.ok text) persistRes
        addChunks completeFlushRes).2.2 =
        .error "No text could be extracted from the document") ∧
    (¬ (¬ pyTruthyStr text ∨ (pyStrip text.data).length = 0) →
      chunk_text text = [] →
      persistRes = .ok () → addChunks vs [] = .ok (vs2, ids) →
      completeFlushRes = .ok () →
      (DocumentService.process_document document vs (.ok text) persistRes
        addChunks completeFlushRes).1.status = DocumentStatus.completed ∧
      (DocumentService.process_document document vs (.ok text) persistRes
        addChunks completeFlushRes).1.chunk_count = some 0 ∧
      (DocumentService.process_document document vs (.ok text) persistRes
        addChunks completeFlushRes).2.2 = .ok ()) := by
  constructor
  · intro hg
    unfold DocumentService.process_document
    dsimp only
    rw [if_pos hg]
    exact ⟨rfl, rfl, rfl⟩
  · intro hg hchunks hp ha hf
    subst hp
    subst hf
    unfold DocumentService.process_document
    dsimp only
    rw [if_neg hg, hchunks, ha]
    exact ⟨rfl, rfl, rfl⟩

/-- C8 witness: the amended theorem at the whitespace-only text `"   "`
(FAILED with the ValueError message) and at `"short"` (COMPLETED with
zero chunks). -/
theorem C8_zero_witness :
    ((DocumentService.process_document
        ⟨1, 2, "a.txt", DocumentStatus.pending, none, none, false⟩ ()
        (.ok "   ") (.ok ()) (fun st _ => .ok (st, [])) (.ok ())).1.status =
      DocumentStatus.failed ∧
     (DocumentService.process_document
        ⟨1, 2, "a.txt", DocumentStatus.pending, none, none, false⟩ ()
        (.ok "   ") (.ok ()) (fun st _ => .ok (st, [])) (.ok ())).1.error_message =
      some "No text could be extracted from the document" ∧
     (DocumentService.process_document
        ⟨1, 2, "a.txt", DocumentStatus.pending, none, none, false⟩ ()
        (.ok "   ") (.ok ()) (fun st _ => .ok (st, [])) (.ok ())).2.2 =
      .error "No text could be extracted from the document") ∧
    ((DocumentService.process_document
        ⟨1, 2, "a.txt", DocumentStatus.pending, none, none, false⟩ ()
        (.ok "short") (.ok ()) (fun st _ => .ok (st, [])) (.ok ())).1.status =
      DocumentStatus.completed ∧
     (DocumentService.process_document
        ⟨1, 2, "a.txt", DocumentStatus.pending, none, none, false⟩ ()
        (.ok "short") (.ok ()) (fun st _ => .ok (st, [])) (.ok ())).1.chunk_count =
      some 0 ∧
     (DocumentService.process_document
        ⟨1, 2, "a.txt", DocumentStatus.pending, none, none, false⟩ ()
        (.ok "short") (.ok ()) (fun st _ => .ok (st, [])) (.ok ())).2.2 =
      .ok ()) :=
  ⟨(C8_zero_amended
      ⟨1, 2, "a.txt", DocumentStatus.pending, none, none, false⟩ ()
      (.ok ()) (fun st _ => .ok (st, [])) (.ok ()) "   " () []).1
      (by decide),
   (C8_zero_amended
      ⟨1, 2, "a.txt", DocumentStatus.pending, none, none, false⟩ ()
      (.ok ()) (fun st _ => .ok (st, [])) (.ok ()) "short" () []).2
      (by decide) (by decide) rfl rfl rfl⟩

/-! ## Claim C5 — generation failure falls back to the canned answer -/

set_option maxRecDepth 40000 in
/-- C5: whenever the provider call raises (every invocation of `call`
errors) and the selected provider resolves to one of the four known
backends (or no settings are given), `generate_response` never
propagates the failure: it returns exactly the deterministic
`fallback_response`, which for the concrete evidence
`[{content: "Paris is the capital of France.", document_name: "geo.txt"}]`
contains the substring `"geo.txt"` and the literal content. -/
theorem C5_generation_fallback (dgk dgmk : Option String) (call : GenCall)
    (query : String) (chunks : List SearchResult)
    (hist : Option (List ChatMsg)) (us : Option UserSettings) (e : String)
    (hprov : match us with
      | none => True
      | some u => u.llm_provider.getD "groq" = "groq" ∨
          u.llm_provider.getD "groq" = "openai" ∨
          u.llm_provider.getD "groq" = "anthropic" ∨
          u.llm_provider.getD "groq" = "gemini")
    (hfail : ∀ p m pr t mt k, call p m pr t mt k = .error e) :
    LLMService.generate_response dgk dgmk call query chunks hist us =
      LLMService.fallback_response query chunks ∧
    "geo.txt".data <:+:
      (LLMService.fallback_response "What is the capital of France?"
        [⟨"", "Paris is the capital of France.", 0, "geo.txt", 0, 0, 0, 0⟩]).data ∧
    "Paris is the capital of France.".data <:+:
      (LLMService.fallback_response "What is the capital of France?"
        [⟨"", "Paris is the capital of France.", 0, "geo.txt", 0, 0, 0, 0⟩]).data := by
  refine ⟨?_, by decide, by decide⟩
  unfold LLMService.generate_response LLMService.generate_async
  rcases us with _ | u <;> dsimp only
  · split_ifs <;> simp_all [hfail]
  · rcases hprov with hp | hp | hp | hp <;>
      simp only [hp] <;> split_ifs <;> simp_all [hfail]

set_option maxRecDepth 40000 in
/-- C5 witness: the theorem at a concrete always-failing provider call
with no user settings and the geo.txt evidence. -/
theorem C5_generation_fallback_witness :
    LLMService.generate_response (some "k") none
        (fun _ _ _ _ _ _ => .error "boom") "What is the capital of France?"
        [⟨"", "Paris is the capital of France.", 0, "geo.txt", 0, 0, 0, 0⟩]
        none none =
      LLMService.fallback_response "What is the capital of France?"
        [⟨"", "Paris is the capital of France.", 0, "geo.txt", 0, 0, 0, 0⟩] ∧
    "geo.txt".data <:+:
      (LLMService.fallback_response "What is the capital of France?"
        [⟨"", "Paris is the capital of France.", 0, "geo.txt", 0, 0, 0, 0⟩]).data ∧
    "Paris is the capital of France.".data <:+:
      (LLMService.fallback_response "What is the capital of France?"
        [⟨"", "Paris is the capital of France.", 0, "geo.txt", 0, 0, 0, 0⟩]).data :=
  C5_generation_fallback (some "k") none (fun _ _ _ _ _ _ => .error "boom")
    "What is the capital of France?"
    [⟨"", "Paris is the capital of France.", 0, "geo.txt", 0, 0, 0, 0⟩]
    none none "boom" trivial (fun _ _ _ _ _ _ => rfl)

/-! ## Claim C6 — unusable provider selection -/

set_option maxRecDepth 4000 in
/-- C6, counterexample: with the default groq key configured, a request
selecting the unsupported provider name `"cohere"` is answered with the
literal error string `"LLM provider not supported"` — not with a
fallback to the default provider, and not with the canned
evidence-listing response. -/
theorem C6_provider_fallback_counterexample :
    LLMService.generate_response (some "k") none
        (fun _ _ _ _ _ _ => .error "boom") "q"
        [⟨"", "Paris is the capital of France.", 0, "geo.txt", 0, 0, 0, 0⟩]
        none (some { llm_provider := some "cohere" }) =
      "LLM provider not supported" ∧
    "LLM provider not supported" ≠
      LLMService.fallback_response "q"
        [⟨"", "Paris is the capital of France.", 0, "geo.txt", 0, 0, 0, 0⟩] := by
  exact ⟨rfl, by decide⟩

/-- C6, amended: when the caller selects ANY known non-default provider
(`"openai"`, `"anthropic"` or `"gemini"`) whose resolved credential is
unusable — the provider's own key for openai/anthropic, and for gemini
the user key `or` the system default gemini key — the generator falls
back to the system default provider groq once: if the groq call
succeeds its answer is returned, and if it fails (or no groq key exists
either) the canned evidence-listing response is returned; but when the
caller selects an UNSUPPORTED provider name while the default groq key
is present, the literal string `"LLM provider not supported"` is
returned in place of an answer. -/
theorem C6_provider_fallback_amended (dgk dgmk : Option String)
    (call : GenCall) (query : String) (chunks : List SearchResult)
    (hist : Option (List ChatMsg)) (u : UserSettings) (e r p q : String) :
    (u.llm_provider = some q →
      (q = "openai" ∨ q = "anthropic" ∨ q = "gemini") →
      ¬ pyTruthy (if q = "openai" then u.openai_api_key
        else if q = "anthropic" then u.anthropic_api_key
        else pyOrStr u.gemini_api_key dgmk) →
      (∀ m pr t mt k, call "groq" m pr t mt k = .error e) →
      LLMService.generate_response dgk dgmk call query chunks hist (some u) =
        LLMService.fallback_response query chunks) ∧
    (u.llm_provider = some q →
      (q = "openai" ∨ q = "anthropic" ∨ q = "gemini") →
      ¬ pyTruthy (if q = "openai" then u.openai_api_key
        else if q = "anthropic" then u.anthropic_api_key
        else pyOrStr u.gemini_api_key dgmk) →
      pyTruthy dgk →
      (∀ m pr t mt k, call "groq" m pr t mt k = .ok r) →
      LLMService.generate_response dgk dgmk call query chunks hist (some u) =
        r) ∧
    (u.llm_provider = some p →
      ¬ p = "groq" → ¬ p = "openai" → ¬ p = "anthropic" → ¬ p = "gemini" →
      pyTruthy dgk →
      LLMService.generate_response dgk dgmk call query chunks hist (some u) =
        "LLM provider not supported") := by
  refine ⟨?_, ?_, ?_⟩
  · intro hp hq hk hgfail
    rcases hq with hq | hq | hq <;> subst hq <;>
      (unfold LLMService.generate_response LLMService.generate_async
       dsimp only
       simp only [hp, Option.getD_some]
       split_ifs <;> simp_all)
  · intro hp hq hk hdk hgok
    rcases hq with hq | hq | hq <;> subst hq <;>
      (unfold LLMService.generate_response LLMService.generate_async
       dsimp only
       simp only [hp, Option.getD_some]
       split_ifs <;> simp_all)
  · intro hp h1 h2 h3 h4 hdk
    unfold LLMService.generate_response LLMService.generate_async
    dsimp only
    simp only [hp, Option.getD_some]
    split_ifs <;> simp_all

/-- C6 witness: the amended theorem at concrete inputs covering all
three known non-default providers — `"openai"` with no key and a
failing groq call gives the canned response; `"anthropic"` with no key
and a succeeding groq call gives groq's answer; `"gemini"` with neither
a user key nor a system gemini key and a failing groq call gives the
canned response. -/
theorem C6_provider_fallback_witness :
    (LLMService.generate_response (some "k") none
        (fun _ _ _ _ _ _ => .error "boom") "q" [] none
        (some { llm_provider := some "openai" }) =
      LLMService.fallback_response "q" []) ∧
    (LLMService.generate_response (some "k") none
        (fun _ _ _ _ _ _ => .ok "groq answer") "q" [] none
        (some { llm_provider := some "anthropic" }) =
      "groq answer") ∧
    (LLMService.generate_response (some "k") none
        (fun _ _ _ _ _ _ => .error "boom") "q" [] none
        (some { llm_provider := some "gemini" }) =
      LLMService.fallback_response "q" []) :=
  ⟨(C6_provider_fallback_amended (some "k") none
      (fun _ _ _ _ _ _ => .error "boom") "q" [] none
      { llm_provider := some "openai" } "boom" "groq answer" "cohere"
      "openai").1
      rfl (Or.inl rfl) (by decide) (fun _ _ _ _ _ => rfl),
   (C6_provider_fallback_amended (some "k") none
      (fun _ _ _ _ _ _ => .ok "groq answer") "q" [] none
      { llm_provider := some "anthropic" } "boom" "groq answer" "cohere"
      "anthropic").2.1
      rfl (Or.inr (Or.inl rfl)) (by decide) (by decide)
      (fun _ _ _ _ _ => rfl),
   (C6_provider_fallback_amended (some "k") none
      (fun _ _ _ _ _ _ => .error "boom") "q" [] none
      { llm_provider := some "gemini" } "boom" "groq answer" "cohere"
      "gemini").1
      rfl (Or.inr (Or.inr rfl)) (by decide) (fun _ _ _ _ _ => rfl)⟩
